import Mathlib

/-!
Verification of the persons single-table data layer of the tanstack-aws
repository: the DynamoDB key codec (`DynamoDBKeys`), the Zod→ElectroDB
schema derivation (`zod-to-electrodb.ts`), the persons client CRUD
(`personsClient.ts`, `trpc/react.ts`) and the Orama search merge
(`personSearch.ts`).  DynamoDB itself is modelled as in-memory lists of
typed records; each operation is translated from the TypeScript source.
-/

namespace TanstackAws

/-! ## Key codec (`DynamoDBKeys` in `types/person.ts`)

The extract helpers use JavaScript `String.replace(pattern, '')` with a
plain-string pattern, which removes the *first* occurrence of the pattern
(anywhere in the string) and returns the string unchanged when the pattern
does not occur. -/

/-- JavaScript `s.replace(pat, '')` on the character list of `s`: drop the
first occurrence of `pat`, or return the list unchanged when `pat` does not
occur. -/
def replaceFirstList (pat : List Char) : List Char → List Char
  | [] => []
  | c :: rest =>
    if pat.isPrefixOf (c :: rest) then (c :: rest).drop pat.length
    else c :: replaceFirstList pat rest

/-- JavaScript `s.replace(pat, '')` for a plain-string pattern. -/
def replaceFirst (s pat : String) : String :=
  ⟨replaceFirstList pat.data s.data⟩

namespace DynamoDBKeys

def person.pk (personId : String) : String := "PERSON#" ++ personId

def person.sk : String := "PROFILE"

def person.gsi1pk : String := "PERSONS"

def person.gsi1sk (personId : String) : String := "PERSON#" ++ personId

def address.pk (personId : String) : String := "PERSON#" ++ personId

def address.sk (addressId : String) : String := "ADDRESS#" ++ addressId

def bankAccount.pk (personId : String) : String := "PERSON#" ++ personId

def bankAccount.sk (bankId : String) : String := "BANK#" ++ bankId

def contactInfo.pk (personId : String) : String := "PERSON#" ++ personId

def contactInfo.sk (contactId : String) : String := "CONTACT#" ++ contactId

def employment.pk (personId : String) : String := "PERSON#" ++ personId

def employment.sk (employmentId : String) : String := "EMPLOYMENT#" ++ employmentId

def extractPersonId (pk : String) : String := replaceFirst pk "PERSON#"

def extractAddressId (sk : String) : String := replaceFirst sk "ADDRESS#"

def extractBankId (sk : String) : String := replaceFirst sk "BANK#"

def extractContactId (sk : String) : String := replaceFirst sk "CONTACT#"

def extractEmploymentId (sk : String) : String := replaceFirst sk "EMPLOYMENT#"

end DynamoDBKeys

theorem replaceFirstList_cancel (pat rest : List Char) (h : pat ≠ []) :
    replaceFirstList pat (pat ++ rest) = rest := by
  cases pat with
  | nil => exact absurd rfl h
  | cons p ps =>
    rw [List.cons_append]
    unfold replaceFirstList
    rw [if_pos]
    · rw [← List.cons_append, List.drop_left]
    · have : (p :: ps) <+: (p :: ps) ++ rest := List.prefix_append _ _
      rw [← List.cons_append]
      exact List.isPrefixOf_iff_prefix.mpr this

theorem replaceFirstList_no_occurrence (pat : List Char) (l : List Char)
    (h : ¬ pat <:+: l) : replaceFirstList pat l = l := by
  induction l with
  | nil => rfl
  | cons c rest ih =>
    unfold replaceFirstList
    rw [if_neg, ih]
    · intro hinf
      exact h (hinf.trans (List.suffix_cons c rest).isInfix)
    · intro hpre
      have hpre' := List.isPrefixOf_iff_prefix.mp hpre
      exact h hpre'.isInfix

theorem replaceFirst_cancel (pre s : String) (h : pre.data ≠ []) :
    replaceFirst (pre ++ s) pre = s := by
  unfold replaceFirst
  rw [String.data_append, replaceFirstList_cancel _ _ h]

theorem replaceFirst_no_occurrence (s pat : String) (h : ¬ pat.data <:+: s.data) :
    replaceFirst s pat = s := by
  unfold replaceFirst
  rw [replaceFirstList_no_occurrence _ _ h]

/-- C1: for every entity type and every id not containing the separator
character `#`, the extract helper is a left inverse of the corresponding
key builder: decoding the encoded key returns the original identifier. -/
theorem key_codec_roundTrip (id : String) (h : ¬ ('#' ∈ id.data)) :
    DynamoDBKeys.extractPersonId (DynamoDBKeys.person.pk id) = id ∧
    DynamoDBKeys.extractAddressId (DynamoDBKeys.address.sk id) = id ∧
    DynamoDBKeys.extractBankId (DynamoDBKeys.bankAccount.sk id) = id ∧
    DynamoDBKeys.extractContactId (DynamoDBKeys.contactInfo.sk id) = id ∧
    DynamoDBKeys.extractEmploymentId (DynamoDBKeys.employment.sk id) = id := by
  refine ⟨?_, ?_, ?_, ?_, ?_⟩ <;>
    exact replaceFirst_cancel _ id (by decide)

/-- C1 witness: the round trip at the concrete id `abc`. -/
theorem key_codec_roundTrip_witness :
    DynamoDBKeys.extractPersonId (DynamoDBKeys.person.pk "abc") = "abc" ∧
    DynamoDBKeys.extractAddressId (DynamoDBKeys.address.sk "abc") = "abc" ∧
    DynamoDBKeys.extractBankId (DynamoDBKeys.bankAccount.sk "abc") = "abc" ∧
    DynamoDBKeys.extractContactId (DynamoDBKeys.contactInfo.sk "abc") = "abc" ∧
    DynamoDBKeys.extractEmploymentId (DynamoDBKeys.employment.sk "abc") = "abc" :=
  key_codec_roundTrip "abc" (by decide)

/-- C2 counterexample: the parsers never fail.  Passing the sort key
`BANK#x` to the address parser returns the string `BANK#x` unchanged (and
it does not start with the expected `ADDRESS#` prefix), instead of failing
with a `MalformedKey` error; no error channel exists in the code. -/
theorem extract_mismatch_counterexample :
    DynamoDBKeys.extractAddressId "BANK#x" = "BANK#x" ∧
    ¬ ("ADDRESS#".data <+: "BANK#x".data) := by
  constructor
  · decide
  · decide

/-- C2 amended: the extract helpers are total functions with no error
result; a sort key in which the expected type prefix does not occur at all
is returned unchanged (no `MalformedKey` failure is raised). -/
theorem extract_mismatch_amended (sk : String) :
    (¬ ("PERSON#".data <:+: sk.data) → DynamoDBKeys.extractPersonId sk = sk) ∧
    (¬ ("ADDRESS#".data <:+: sk.data) → DynamoDBKeys.extractAddressId sk = sk) ∧
    (¬ ("BANK#".data <:+: sk.data) → DynamoDBKeys.extractBankId sk = sk) ∧
    (¬ ("CONTACT#".data <:+: sk.data) → DynamoDBKeys.extractContactId sk = sk) ∧
    (¬ ("EMPLOYMENT#".data <:+: sk.data) → DynamoDBKeys.extractEmploymentId sk = sk) := by
  refine ⟨?_, ?_, ?_, ?_, ?_⟩ <;>
    exact fun h => replaceFirst_no_occurrence sk _ h

/-- C2 amended witness: at the sort key `BANK#x`, which does not contain
the prefix `ADDRESS#`, the address parser returns the input unchanged. -/
theorem extract_mismatch_amended_witness :
    DynamoDBKeys.extractAddressId "BANK#x" = "BANK#x" :=
  (extract_mismatch_amended "BANK#x").2.1 (by decide)

/-! ## Schema derivation (`zod-to-electrodb.ts`)

The Zod type tree is embedded as a closed inductive mirroring the type
names that `getZodTypeName` reads off the runtime schema (`_zod.def.type`):
the wrapper nodes carry the schema that `unwrapSchema` (`unwrap?.()`)
yields.  `z.uuid()` and `z.iso.datetime()` are string-format schemas whose
type name is `string`; `.min`, `.max`, `.length`, `.positive` are checks
that leave the type name unchanged. -/

/-- A runtime value usable as an attribute default (the defaults appearing
in the five entity schemas are booleans and strings). -/
inductive Value where
  | str (s : String)
  | num (n : Int)
  | bool (b : Bool)
deriving DecidableEq

/-- A Zod default: either a plain value or a generator thunk. -/
inductive DefaultValue where
  | value (v : Value)
  | thunk (f : Unit → Value)

/-- `resolveDefaultValue`: invoke the default when it is a function. -/
def resolveDefaultValue : DefaultValue → Value
  | .value v => v
  | .thunk f => f ()

/-- The Zod type-node kinds dispatched on by `convertZodType`. -/
inductive ZodType where
  | string
  | number
  | int
  | boolean
  | enum (options : List String)
  | literalStr (value : String)
  | literalNum (value : Int)
  | literalBool (value : Bool)
  | literalOther
  | optional (inner : ZodType)
  | nullable (inner : ZodType)
  | default (inner : ZodType) (defaultValue : DefaultValue)
  | array (inner : ZodType)
  | tuple
  | object
  | record
  | union
  | intersection
  | pipe (inner : ZodType)
  | transform (inner : ZodType)
  | unrecognized

/-- `unwrapSchema`: `schema.unwrap?.() ?? schema` — the wrapped inner
schema for wrapper nodes, the node itself otherwise. -/
def unwrapSchema : ZodType → ZodType
  | .optional inner => inner
  | .nullable inner => inner
  | .default inner _ => inner
  | .pipe inner => inner
  | .transform inner => inner
  | t => t

/-- The storage type of a derived ElectroDB attribute: a primitive name,
`list`, `map`, `any`, or an explicit allowed-value list (for enums and
string literals). -/
inductive StorageType where
  | string
  | number
  | boolean
  | list
  | map
  | any
  | enumList (values : List String)
deriving DecidableEq

/-- One derived ElectroDB attribute `{ type, required, default? }` (the
source spells the third key `default`). -/
structure ElectroDBAttribute where
  type : StorageType
  required : Bool
  default : Option Value := none
deriving DecidableEq

/-- `convertZodType`: the handler chain
`handleWrapperType ?? handlePrimitiveType ?? handleEnumType ??
handleCollectionType ?? handleUnionType ?? handlePipeType ??
handleLiteralType ?? fallback`.  The type names the handlers test are
disjoint, so the chain is a single total match on the node kind; each
recursive branch recurses on `unwrapSchema` of the node, which is the
node's inner schema. -/
def convertZodType : ZodType → ElectroDBAttribute
  | .optional inner => { convertZodType inner with required := false }
  | .nullable inner => { convertZodType inner with required := false }
  | .default inner dv =>
    { convertZodType inner with default := some (resolveDefaultValue dv) }
  | .string => { type := .string, required := true }
  | .number => { type := .number, required := true }
  | .int => { type := .number, required := true }
  | .boolean => { type := .boolean, required := true }
  | .enum options =>
    if options.isEmpty then { type := .string, required := true }
    else { type := .enumList options, required := true }
  | .array _ => { type := .list, required := true }
  | .tuple => { type := .list, required := true }
  | .object => { type := .map, required := true }
  | .record => { type := .map, required := true }
  | .union => { type := .any, required := true }
  | .intersection => { type := .map, required := true }
  | .pipe inner => convertZodType inner
  | .transform inner => convertZodType inner
  | .literalStr v => { type := .enumList [v], required := true }
  | .literalNum _ => { type := .number, required := true }
  | .literalBool _ => { type := .boolean, required := true }
  | .literalOther => { type := .any, required := true }
  | .unrecognized => { type := .string, required := true }

/-- `zodToElectroDBAttributes`: convert every field of an object schema's
shape. -/
def zodToElectroDBAttributes (shape : List (String × ZodType)) :
    List (String × ElectroDBAttribute) :=
  shape.map (fun kv => (kv.1, convertZodType kv.2))

/-! The five entity schemas of `types/person.ts`, as field-shape trees. -/

def GenderEnum : ZodType :=
  .enum ["male", "female", "other", "prefer_not_to_say"]

def AddressTypeEnum : ZodType :=
  .enum ["home", "work", "billing", "shipping"]

def AccountTypeEnum : ZodType :=
  .enum ["checking", "savings", "investment"]

def ContactTypeEnum : ZodType :=
  .enum ["email", "phone", "mobile", "linkedin", "twitter"]

def PersonSchemaShape : List (String × ZodType) :=
  [("id", .string), ("firstName", .string), ("lastName", .string),
   ("dateOfBirth", .optional .string), ("gender", .optional GenderEnum),
   ("createdAt", .string), ("updatedAt", .string)]

def AddressSchemaShape : List (String × ZodType) :=
  [("id", .string), ("personId", .string), ("type", AddressTypeEnum),
   ("street", .string), ("city", .string), ("state", .string),
   ("postalCode", .string), ("country", .string),
   ("isPrimary", .default .boolean (.value (.bool false)))]

def BankAccountSchemaShape : List (String × ZodType) :=
  [("id", .string), ("personId", .string), ("bankName", .string),
   ("accountType", AccountTypeEnum), ("accountNumberLast4", .string),
   ("iban", .optional .string), ("bic", .optional .string),
   ("isPrimary", .default .boolean (.value (.bool false)))]

def ContactInfoSchemaShape : List (String × ZodType) :=
  [("id", .string), ("personId", .string), ("type", ContactTypeEnum),
   ("value", .string),
   ("isPrimary", .default .boolean (.value (.bool false))),
   ("isVerified", .default .boolean (.value (.bool false)))]

def EmploymentSchemaShape : List (String × ZodType) :=
  [("id", .string), ("personId", .string), ("companyName", .string),
   ("position", .string), ("department", .optional .string),
   ("startDate", .string), ("endDate", .optional (.nullable .string)),
   ("isCurrent", .default .boolean (.value (.bool false))),
   ("salary", .optional .number),
   ("currency", .default .string (.value (.str "USD")))]

def personAttributes : List (String × ElectroDBAttribute) :=
  zodToElectroDBAttributes PersonSchemaShape

def addressAttributes : List (String × ElectroDBAttribute) :=
  zodToElectroDBAttributes AddressSchemaShape

def bankAccountAttributes : List (String × ElectroDBAttribute) :=
  zodToElectroDBAttributes BankAccountSchemaShape

def contactInfoAttributes : List (String × ElectroDBAttribute) :=
  zodToElectroDBAttributes ContactInfoSchemaShape

def employmentAttributes : List (String × ElectroDBAttribute) :=
  zodToElectroDBAttributes EmploymentSchemaShape

/-- C3: the derivation matches the hand-computed table on every wrapper
shape used by the five entity schemas: `optional(string)` gives storage
type `string` with `required := false`; `default(boolean, false)` gives
`boolean` with `required := true` and default `false` (witnessed on the
real `Address.isPrimary` and `Person.dateOfBirth` fields); enum fields
give the explicit allowed-value list (also under `optional`, as in
`Person.gender`); array fields give `list`; object fields give `map`. -/
theorem zod_derivation_table :
    convertZodType (.optional .string) =
      { type := .string, required := false } ∧
    convertZodType (.default .boolean (.value (.bool false))) =
      { type := .boolean, required := true, default := some (.bool false) } ∧
    personAttributes.lookup "dateOfBirth" =
      some { type := .string, required := false } ∧
    addressAttributes.lookup "isPrimary" =
      some { type := .boolean, required := true,
             default := some (.bool false) } ∧
    addressAttributes.lookup "type" =
      some { type := .enumList ["home", "work", "billing", "shipping"],
             required := true } ∧
    contactInfoAttributes.lookup "type" =
      some { type := .enumList ["email", "phone", "mobile", "linkedin",
                                "twitter"],
             required := true } ∧
    bankAccountAttributes.lookup "accountType" =
      some { type := .enumList ["checking", "savings", "investment"],
             required := true } ∧
    personAttributes.lookup "gender" =
      some { type := .enumList ["male", "female", "other",
                                "prefer_not_to_say"],
             required := false } ∧
    (∀ inner : ZodType, convertZodType (.array inner) =
      { type := .list, required := true }) ∧
    convertZodType .object = { type := .map, required := true } := by
  refine ⟨rfl, rfl, ?_, ?_, ?_, ?_, ?_, ?_, fun inner => rfl, rfl⟩ <;> rfl

/-! ### Termination of the derivation walk (C9)

`convertZodType` above is total by structural recursion; to state
termination as a theorem about the walk, a fuel-indexed version of the
same recursion is shown to succeed whenever the fuel reaches the node-count
of the tree, with the recursive branches recursing on `unwrapSchema` of
the node — the strictly smaller inner schema. -/

/-- Number of nodes along the wrapper/pipe spine of a schema tree: the
measure that each `unwrapSchema` step strictly decreases. -/
def ZodType.size : ZodType → Nat
  | .optional inner => inner.size + 1
  | .nullable inner => inner.size + 1
  | .default inner _ => inner.size + 1
  | .pipe inner => inner.size + 1
  | .transform inner => inner.size + 1
  | _ => 1

/-- The derivation walk with explicit fuel: `none` when the fuel runs out,
otherwise exactly the branches of `convertZodType`, each recursive branch
applied to `unwrapSchema` of the node. -/
def convertZodTypeFuel : Nat → ZodType → Option ElectroDBAttribute
  | 0, _ => none
  | fuel + 1, t =>
    match t with
    | .optional inner =>
      (convertZodTypeFuel fuel (unwrapSchema (.optional inner))).map
        (fun a => { a with required := false })
    | .nullable inner =>
      (convertZodTypeFuel fuel (unwrapSchema (.nullable inner))).map
        (fun a => { a with required := false })
    | .default inner dv =>
      (convertZodTypeFuel fuel (unwrapSchema (.default inner dv))).map
        (fun a => { a with default := some (resolveDefaultValue dv) })
    | .pipe inner => convertZodTypeFuel fuel (unwrapSchema (.pipe inner))
    | .transform inner =>
      convertZodTypeFuel fuel (unwrapSchema (.transform inner))
    | t => some (convertZodType t)

/-- C9: the derivation walk terminates on every finite schema tree,
including trees containing pipe/transform nodes: the recursive branches
recurse on `unwrapSchema` of the node — the strictly smaller inner
schema — so fuel equal to the spine length of the tree suffices, and the
fuel-indexed walk computes exactly the total function `convertZodType`. -/
theorem convertZodType_terminates (t : ZodType) (fuel : Nat)
    (h : t.size ≤ fuel) :
    convertZodTypeFuel fuel t = some (convertZodType t) := by
  induction t generalizing fuel with
  | optional inner ih =>
    cases fuel with
    | zero => exact absurd h (by simp [ZodType.size])
    | succ f =>
      have hi : inner.size ≤ f := by
        have := h; simp [ZodType.size] at this; omega
      simp [convertZodTypeFuel, unwrapSchema, ih f hi, convertZodType]
  | nullable inner ih =>
    cases fuel with
    | zero => exact absurd h (by simp [ZodType.size])
    | succ f =>
      have hi : inner.size ≤ f := by
        have := h; simp [ZodType.size] at this; omega
      simp [convertZodTypeFuel, unwrapSchema, ih f hi, convertZodType]
  | @default inner dv ih =>
    cases fuel with
    | zero => exact absurd h (by simp [ZodType.size])
    | succ f =>
      have hi : inner.size ≤ f := by
        have := h; simp [ZodType.size] at this; omega
      simp [convertZodTypeFuel, unwrapSchema, ih f hi, convertZodType]
  | pipe inner ih =>
    cases fuel with
    | zero => exact absurd h (by simp [ZodType.size])
    | succ f =>
      have hi : inner.size ≤ f := by
        have := h; simp [ZodType.size] at this; omega
      simp [convertZodTypeFuel, unwrapSchema, ih f hi, convertZodType]
  | transform inner ih =>
    cases fuel with
    | zero => exact absurd h (by simp [ZodType.size])
    | succ f =>
      have hi : inner.size ≤ f := by
        have := h; simp [ZodType.size] at this; omega
      simp [convertZodTypeFuel, unwrapSchema, ih f hi, convertZodType]
  | array inner ih =>
    cases fuel with
    | zero => exact absurd h (by simp [ZodType.size])
    | succ f => simp [convertZodTypeFuel]
  | string =>
    cases fuel with
    | zero => exact absurd h (by simp [ZodType.size])
    | succ f => simp [convertZodTypeFuel]
  | number =>
    cases fuel with
    | zero => exact absurd h (by simp [ZodType.size])
    | succ f => simp [convertZodTypeFuel]
  | int =>
    cases fuel with
    | zero => exact absurd h (by simp [ZodType.size])
    | succ f => simp [convertZodTypeFuel]
  | boolean =>
    cases fuel with
    | zero => exact absurd h (by simp [ZodType.size])
    | succ f => simp [convertZodTypeFuel]
  | enum options =>
    cases fuel with
    | zero => exact absurd h (by simp [ZodType.size])
    | succ f => simp [convertZodTypeFuel]
  | literalStr v =>
    cases fuel with
    | zero => exact absurd h (by simp [ZodType.size])
    | succ f => simp [convertZodTypeFuel]
  | literalNum v =>
    cases fuel with
    | zero => exact absurd h (by simp [ZodType.size])
    | succ f => simp [convertZodTypeFuel]
  | literalBool v =>
    cases fuel with
    | zero => exact absurd h (by simp [ZodType.size])
    | succ f => simp [convertZodTypeFuel]
  | literalOther =>
    cases fuel with
    | zero => exact absurd h (by simp [ZodType.size])
    | succ f => simp [convertZodTypeFuel]
  | tuple =>
    cases fuel with
    | zero => exact absurd h (by simp [ZodType.size])
    | succ f => simp [convertZodTypeFuel]
  | object =>
    cases fuel with
    | zero => exact absurd h (by simp [ZodType.size])
    | succ f => simp [convertZodTypeFuel]
  | record =>
    cases fuel with
    | zero => exact absurd h (by simp [ZodType.size])
    | succ f => simp [convertZodTypeFuel]
  | union =>
    cases fuel with
    | zero => exact absurd h (by simp [ZodType.size])
    | succ f => simp [convertZodTypeFuel]
  | intersection =>
    cases fuel with
    | zero => exact absurd h (by simp [ZodType.size])
    | succ f => simp [convertZodTypeFuel]
  | unrecognized =>
    cases fuel with
    | zero => exact absurd h (by simp [ZodType.size])
    | succ f => simp [convertZodTypeFuel]

/-- C9 witness: the walk at a pipe-wrapping-optional-string tree with fuel
equal to its spine length. -/
theorem convertZodType_terminates_witness :
    convertZodTypeFuel 3 (.pipe (.optional .string)) =
      some (convertZodType (.pipe (.optional .string))) :=
  convertZodType_terminates (.pipe (.optional .string)) 3 (by decide)

/-! ## Entity records (`types/person.ts`) and the single-table store

The DynamoDB table is modelled as five lists of typed records; the
composite keys are injective in the underlying ids (`PERSON#` ++ · and the
sort-key builders are injective), so point reads, queries and deletes by
key are filters on the id fields. -/

inductive Gender where
  | male
  | female
  | other
  | preferNotToSay
deriving DecidableEq

inductive AddressType where
  | home
  | work
  | billing
  | shipping
deriving DecidableEq

inductive AccountType where
  | checking
  | savings
  | investment
deriving DecidableEq

inductive ContactType where
  | email
  | phone
  | mobile
  | linkedin
  | twitter
deriving DecidableEq

structure Person where
  id : String
  firstName : String
  lastName : String
  dateOfBirth : Option String := none
  gender : Option Gender := none
  createdAt : String
  updatedAt : String
deriving DecidableEq

structure Address where
  id : String
  personId : String
  type : AddressType
  street : String
  city : String
  state : String
  postalCode : String
  country : String
  isPrimary : Bool
deriving DecidableEq

structure BankAccount where
  id : String
  personId : String
  bankName : String
  accountType : AccountType
  accountNumberLast4 : String
  iban : Option String := none
  bic : Option String := none
  isPrimary : Bool
deriving DecidableEq

structure ContactInfo where
  id : String
  personId : String
  type : ContactType
  value : String
  isPrimary : Bool
  isVerified : Bool
deriving DecidableEq

structure Employment where
  id : String
  personId : String
  companyName : String
  position : String
  department : Option String := none
  startDate : String
  endDate : Option String := none
  isCurrent : Bool
  salary : Option Int := none
  currency : String
deriving DecidableEq

/-- The content of the single table, split by entity type.  This is also
the shape of `AllEntitiesData` consumed by the search merge. -/
structure Store where
  persons : List Person
  addresses : List Address
  bankAccounts : List BankAccount
  contacts : List ContactInfo
  employments : List Employment
deriving DecidableEq

abbrev AllEntitiesData := Store

/-- `PersonEntity.get({ id })`: point read by primary key. -/
def findPerson (s : Store) (personId : String) : Option Person :=
  s.persons.find? (fun p => p.id == personId)

/-- `PersonEntity.put(item)`: upsert by primary key — replace the record
with the same id, or append the record when the id is absent. -/
def putPerson (s : Store) (p : Person) : Store :=
  { s with persons :=
      if s.persons.any (fun q => q.id == p.id) then
        s.persons.map (fun q => if q.id == p.id then p else q)
      else s.persons ++ [p] }

/-- `Partial<Person>` as accepted by `updatePerson`: the fields the merge
reads; an absent (`none`) field is JavaScript `undefined`. -/
structure PersonUpdate where
  firstName : Option String := none
  lastName : Option String := none
  dateOfBirth : Option String := none
  gender : Option Gender := none
  updatedAt : Option String := none
deriving DecidableEq

namespace PersonsClient

/-- `updatePerson(personId, updates)` of
`integrations/electrodb/personsClient.ts`: get the current person (throw
when absent, modelled as `none`), merge each update field with `??` over
the current value, keep `createdAt`, set `updatedAt` to
`updates.updatedAt ?? new Date().toISOString()` (the wall clock is the
explicit `now` argument), and `put` the merged record.  Returns the new
store and the returned person. -/
def updatePerson (s : Store) (personId : String) (updates : PersonUpdate)
    (now : String) : Option (Store × Person) :=
  match findPerson s personId with
  | none => none
  | some current =>
    let updatedPerson : Person :=
      { id := personId
      , firstName := updates.firstName.getD current.firstName
      , lastName := updates.lastName.getD current.lastName
      , dateOfBirth := match updates.dateOfBirth with
          | some v => some v
          | none => current.dateOfBirth
      , gender := match updates.gender with
          | some v => some v
          | none => current.gender
      , createdAt := current.createdAt
      , updatedAt := updates.updatedAt.getD now }
    some (putPerson s updatedPerson, updatedPerson)

end PersonsClient

/-- Two successive `updatePerson` calls on the same id, returning the
`updatedAt` fields of the first and second results (or `none` when either
call fails). -/
def updatedAtAfterTwo (s : Store) (personId : String)
    (u1 u2 : PersonUpdate) (t1 t2 : String) : Option (String × String) :=
  match PersonsClient.updatePerson s personId u1 t1 with
  | none => none
  | some (s1, r1) =>
    match PersonsClient.updatePerson s1 personId u2 t2 with
    | none => none
    | some (_, r2) => some (r1.updatedAt, r2.updatedAt)

namespace Sample

def person1 : Person :=
  { id := "p1", firstName := "Ada", lastName := "Lovelace"
  , createdAt := "2024-01-01T00:00:00.000Z"
  , updatedAt := "2024-01-01T00:00:00.000Z" }

def store1 : Store :=
  { persons := [person1], addresses := [], bankAccounts := []
  , contacts := [], employments := [] }

/-- The result of updating `person1` with an empty partial at time `t`. -/
def person1At (t : String) : Person :=
  { person1 with updatedAt := t }

def store1At (t : String) : Store :=
  { store1 with persons := [person1At t] }

end Sample

/-- C4 counterexample: two successive `updatePerson` calls on the same id
whose wall-clock timestamps fall in the same millisecond return equal
`updatedAt` values — the second result's `updatedAt` is not strictly
greater than the first's. -/
theorem updatePerson_monotonicity_counterexample :
    updatedAtAfterTwo Sample.store1 "p1" {} {}
        "2024-01-02T00:00:00.000Z" "2024-01-02T00:00:00.000Z" =
      some ("2024-01-02T00:00:00.000Z", "2024-01-02T00:00:00.000Z") ∧
    ¬ (("2024-01-02T00:00:00.000Z" : String) < "2024-01-02T00:00:00.000Z") :=
  ⟨by decide, lt_irrefl _⟩

/-- C4 amended: each `updatePerson` result's `updatedAt` is the
caller-supplied `updates.updatedAt` when present, else the call's
wall-clock timestamp; consequently a later call's result has strictly
greater `updatedAt` than an earlier result exactly when its effective
timestamp is strictly greater — which neither the clock (same-millisecond
calls) nor the caller (arbitrary supplied `updatedAt`) is forced to
provide. -/
theorem updatePerson_monotonicity_amended (s : Store) (personId : String)
    (u1 u2 : PersonUpdate) (t1 t2 : String) (s1 s2 : Store) (r1 r2 : Person)
    (h1 : PersonsClient.updatePerson s personId u1 t1 = some (s1, r1))
    (h2 : PersonsClient.updatePerson s1 personId u2 t2 = some (s2, r2))
    (hlt : r1.updatedAt < u2.updatedAt.getD t2) :
    r1.updatedAt < r2.updatedAt := by
  unfold PersonsClient.updatePerson at h2
  cases hf : findPerson s1 personId with
  | none => rw [hf] at h2; exact absurd h2 (by simp)
  | some current =>
    rw [hf] at h2
    simp only [Option.some.injEq, Prod.mk.injEq] at h2
    have : r2.updatedAt = u2.updatedAt.getD t2 := by
      rw [← h2.2]
    rw [this]
    exact hlt

/-- C4 amended witness: with the clock strictly advancing between the two
calls, the second result's `updatedAt` is strictly greater. -/
theorem updatePerson_monotonicity_amended_witness :
    (Sample.person1At "2024-01-02T00:00:00.000Z").updatedAt <
      (Sample.person1At "2024-01-03T00:00:00.000Z").updatedAt :=
  updatePerson_monotonicity_amended Sample.store1 "p1" {} {}
    "2024-01-02T00:00:00.000Z" "2024-01-03T00:00:00.000Z"
    (Sample.store1At "2024-01-02T00:00:00.000Z")
    (Sample.store1At "2024-01-03T00:00:00.000Z")
    (Sample.person1At "2024-01-02T00:00:00.000Z")
    (Sample.person1At "2024-01-03T00:00:00.000Z")
    (by decide) (by decide)
    (by rw [String.lt_iff_toList_lt]; decide)

/-- C8: `updatePerson` is a frame-preserving partial merge: every Person
field whose value in the partial update is absent (`undefined`) keeps its
previous stored value, `createdAt` is never changed, and the id is kept;
only the fields present in the update, plus `updatedAt`, may change. -/
theorem updatePerson_frame (s : Store) (personId : String)
    (u : PersonUpdate) (now : String) (P : Person) (s' : Store) (r : Person)
    (hfind : findPerson s personId = some P)
    (hupd : PersonsClient.updatePerson s personId u now = some (s', r)) :
    (u.firstName = none → r.firstName = P.firstName) ∧
    (u.lastName = none → r.lastName = P.lastName) ∧
    (u.dateOfBirth = none → r.dateOfBirth = P.dateOfBirth) ∧
    (u.gender = none → r.gender = P.gender) ∧
    r.createdAt = P.createdAt ∧ r.id = personId := by
  unfold PersonsClient.updatePerson at hupd
  rw [hfind] at hupd
  simp only [Option.some.injEq, Prod.mk.injEq] at hupd
  have hr := hupd.2
  subst hr
  refine ⟨?_, ?_, ?_, ?_, rfl, rfl⟩
  · intro h; simp [h]
  · intro h; simp [h]
  · intro h; simp [h]
  · intro h; simp [h]

/-- C8 witness: the frame property at a concrete store, person and empty
partial update. -/
theorem updatePerson_frame_witness :
    (({} : PersonUpdate).firstName = none →
      (Sample.person1At "2024-01-02T00:00:00.000Z").firstName =
        Sample.person1.firstName) ∧
    (({} : PersonUpdate).lastName = none →
      (Sample.person1At "2024-01-02T00:00:00.000Z").lastName =
        Sample.person1.lastName) ∧
    (({} : PersonUpdate).dateOfBirth = none →
      (Sample.person1At "2024-01-02T00:00:00.000Z").dateOfBirth =
        Sample.person1.dateOfBirth) ∧
    (({} : PersonUpdate).gender = none →
      (Sample.person1At "2024-01-02T00:00:00.000Z").gender =
        Sample.person1.gender) ∧
    (Sample.person1At "2024-01-02T00:00:00.000Z").createdAt =
      Sample.person1.createdAt ∧
    (Sample.person1At "2024-01-02T00:00:00.000Z").id = "p1" :=
  updatePerson_frame Sample.store1 "p1" {} "2024-01-02T00:00:00.000Z"
    Sample.person1 (Sample.store1At "2024-01-02T00:00:00.000Z")
    (Sample.person1At "2024-01-02T00:00:00.000Z")
    (by decide) (by decide)

/-! ## Cascading delete (`personsClient.ts` `deletePerson`) -/

namespace PersonsClient

/-- Child listings `query.primary({ personId })`: all records of the type
whose `personId` matches. -/
def getAddressesByPersonId (s : Store) (personId : String) : List Address :=
  s.addresses.filter (fun a => a.personId == personId)

def getBankAccountsByPersonId (s : Store) (personId : String) :
    List BankAccount :=
  s.bankAccounts.filter (fun b => b.personId == personId)

def getContactsByPersonId (s : Store) (personId : String) :
    List ContactInfo :=
  s.contacts.filter (fun c => c.personId == personId)

def getEmploymentsByPersonId (s : Store) (personId : String) :
    List Employment :=
  s.employments.filter (fun e => e.personId == personId)

/-- `deletePerson(personId)` of `personsClient.ts`: query the four child
collections for `personId`, then delete every found child by its
`{ personId, id }` key together with the Person item itself.  Each
`Entity.delete` removes the record with exactly that composite key. -/
def deletePerson (s : Store) (personId : String) : Store :=
  let addresses := s.addresses.filter (fun a => a.personId == personId)
  let bankAccounts := s.bankAccounts.filter (fun b => b.personId == personId)
  let contacts := s.contacts.filter (fun c => c.personId == personId)
  let employments := s.employments.filter (fun e => e.personId == personId)
  { persons := s.persons.filter (fun p => !(p.id == personId))
  , addresses := addresses.foldl
      (fun acc a => acc.filter
        (fun b => !(b.personId == personId && b.id == a.id))) s.addresses
  , bankAccounts := bankAccounts.foldl
      (fun acc a => acc.filter
        (fun b => !(b.personId == personId && b.id == a.id))) s.bankAccounts
  , contacts := contacts.foldl
      (fun acc a => acc.filter
        (fun b => !(b.personId == personId && b.id == a.id))) s.contacts
  , employments := employments.foldl
      (fun acc a => acc.filter
        (fun b => !(b.personId == personId && b.id == a.id)))
      s.employments }

end PersonsClient

theorem bool_not_and_filter (p q r : Bool) :
    ((!(p && r)) && (!(p && q))) = !(p && (q || r)) := by
  cases p <;> cases q <;> cases r <;> rfl

/-- Folding per-key deletes over a list `m` of records deletes from `acc`
exactly the records whose `(personId, id)` key occurs in `m`. -/
theorem foldl_filter_delete {α : Type} (pidOf idOf : α → String)
    (pid : String) (m : List α) : ∀ acc : List α,
    m.foldl (fun acc a => acc.filter
        (fun b => !(pidOf b == pid && idOf b == idOf a))) acc =
      acc.filter (fun b =>
        !(pidOf b == pid && m.any (fun a => idOf b == idOf a))) := by
  induction m with
  | nil =>
    intro acc
    simp
  | cons a m ih =>
    intro acc
    rw [List.foldl_cons, ih, List.filter_filter]
    apply List.filter_congr
    intro b _
    rw [List.any_cons]
    exact bool_not_and_filter _ _ _

/-- After deleting every queried child of `pid`, querying the children of
`pid` again returns the empty list. -/
theorem cascade_clears {α : Type} (pidOf idOf : α → String)
    (l : List α) (pid : String) :
    ((l.filter (fun a => pidOf a == pid)).foldl
        (fun acc a => acc.filter
          (fun b => !(pidOf b == pid && idOf b == idOf a))) l).filter
      (fun b => pidOf b == pid) = [] := by
  rw [foldl_filter_delete, List.filter_filter]
  rw [List.filter_eq_nil_iff]
  intro b hb hcontra
  rw [Bool.and_eq_true] at hcontra
  obtain ⟨h1, h2⟩ := hcontra
  rw [Bool.not_eq_true'] at h2
  rw [h1, Bool.true_and] at h2
  have hany : (l.filter (fun a => pidOf a == pid)).any
      (fun a => idOf b == idOf a) = true :=
    List.any_eq_true.mpr ⟨b, List.mem_filter.mpr ⟨hb, h1⟩, by simp⟩
  rw [hany] at h2
  exact absurd h2 (by simp)

/-- C5: after `deletePerson(personId)` completes, listing each of the four
child types for that `personId` returns an empty result, and fetching the
Person returns absent. -/
theorem deletePerson_cascade_complete (s : Store) (personId : String) :
    PersonsClient.getAddressesByPersonId
        (PersonsClient.deletePerson s personId) personId = [] ∧
    PersonsClient.getBankAccountsByPersonId
        (PersonsClient.deletePerson s personId) personId = [] ∧
    PersonsClient.getContactsByPersonId
        (PersonsClient.deletePerson s personId) personId = [] ∧
    PersonsClient.getEmploymentsByPersonId
        (PersonsClient.deletePerson s personId) personId = [] ∧
    findPerson (PersonsClient.deletePerson s personId) personId = none := by
  unfold PersonsClient.deletePerson
  refine ⟨?_, ?_, ?_, ?_, ?_⟩
  · exact cascade_clears Address.personId Address.id s.addresses personId
  · exact cascade_clears BankAccount.personId BankAccount.id
      s.bankAccounts personId
  · exact cascade_clears ContactInfo.personId ContactInfo.id
      s.contacts personId
  · exact cascade_clears Employment.personId Employment.id
      s.employments personId
  · unfold findPerson
    rw [List.find?_eq_none]
    intro p hp
    have := (List.mem_filter.mp hp).2
    simp only [Bool.not_eq_true', beq_eq_false_iff_ne, ne_eq] at this
    simp [this]

/-! ## Delete return value (`trpc/react.ts` `deletePerson`) -/

/-- The number of table items in the `PERSON#personId` partition: the
Person profile item plus every child item of that person (what the
`pk = :pk` query of `deletePerson` enumerates). -/
def personItemsCount (s : Store) (personId : String) : Nat :=
  (s.persons.filter (fun p => p.id == personId)).length +
  (s.addresses.filter (fun a => a.personId == personId)).length +
  (s.bankAccounts.filter (fun b => b.personId == personId)).length +
  (s.contacts.filter (fun c => c.personId == personId)).length +
  (s.employments.filter (fun e => e.personId == personId)).length

namespace DdbApi

/-- `deletePerson(personId)` of `trpc/react.ts`: query every item with
partition key `PERSON#personId`; return `false` when nothing was found,
otherwise batch-delete exactly the found keys and return `true`. -/
def deletePerson (s : Store) (personId : String) : Store × Bool :=
  if personItemsCount s personId == 0 then (s, false)
  else
    ({ persons := s.persons.filter (fun p => !(p.id == personId))
     , addresses := s.addresses.filter (fun a => !(a.personId == personId))
     , bankAccounts :=
         s.bankAccounts.filter (fun b => !(b.personId == personId))
     , contacts := s.contacts.filter (fun c => !(c.personId == personId))
     , employments :=
         s.employments.filter (fun e => !(e.personId == personId)) },
     true)

end DdbApi

namespace Sample

def addr (n : String) : Address :=
  { id := n, personId := "p1", type := .home, street := "1 Main St"
  , city := "London", state := "LDN", postalCode := "E1", country := "UK"
  , isPrimary := false }

/-- A person with two addresses: deleting cascades over 3 items. -/
def storeWithChildren : Store :=
  { persons := [person1], addresses := [addr "a1", addr "a2"]
  , bankAccounts := [], contacts := [], employments := [] }

end Sample

/-- C6 counterexample: neither delete operation returns a count of deleted
items.  The `trpc/react.ts` variant returns only a boolean: deleting a
person that owns two children (3 items) and deleting a person with no
children (1 item) return the same value `true`, so the caller cannot
distinguish how many items the cascade removed (the ElectroDB client
variant returns nothing at all). -/
theorem deletePerson_count_counterexample :
    (DdbApi.deletePerson Sample.storeWithChildren "p1").2 =
      (DdbApi.deletePerson Sample.store1 "p1").2 ∧
    personItemsCount Sample.storeWithChildren "p1" = 3 ∧
    personItemsCount Sample.store1 "p1" = 1 := by
  refine ⟨?_, ?_, ?_⟩ <;> decide

/-- C6 amended: the cascading delete reports only existence, not a count:
`deletePerson` of `trpc/react.ts` returns `true` exactly when at least one
item existed in the person's partition, and `false` otherwise; no count of
deleted items is returned by either delete implementation. -/
theorem deletePerson_returns_existence (s : Store) (personId : String) :
    (DdbApi.deletePerson s personId).2 =
      !(personItemsCount s personId == 0) := by
  unfold DdbApi.deletePerson
  cases hc : (personItemsCount s personId == 0) with
  | true => simp [hc]
  | false => simp [hc]

/-! ## Paged full scan (`trpc/react.ts` `getAllPersons`)

`getAllPersons` runs a `do … while (lastKey)` loop: each iteration issues
one Query with `ExclusiveStartKey := lastKey` and appends the returned
items.  DynamoDB Query pagination is modelled over the fixed GSI1 result
sequence: a request positioned after `startKey` returns the next
`pageSize` items and a `LastEvaluatedKey` exactly when items remain beyond
the returned page.  The per-item Zod re-validation of the loop body
succeeds on every well-formed stored person and is omitted; the items are
treated abstractly. -/

/-- One DynamoDB Query page: the items after the cursor (up to `pageSize`
of them) and the continuation key, `none` at exhaustion. -/
def ddbQueryPage {α : Type} (items : List α) (pageSize : Nat)
    (startKey : Option Nat) : List α × Option Nat :=
  let start := startKey.getD 0
  let page := (items.drop start).take pageSize
  let next := start + page.length
  (page, if next < items.length then some next else none)

/-- The `do … while (lastKey)` accumulation loop of `getAllPersons`, with
explicit fuel: `none` when the fuel is exhausted before the pager reports
exhaustion. -/
def getAllPersonsLoop {α : Type} (items : List α) (pageSize : Nat) :
    Nat → Option Nat → List α → Option (List α)
  | 0, _, _ => none
  | fuel + 1, startKey, acc =>
    let result := ddbQueryPage items pageSize startKey
    match result.2 with
    | none => some (acc ++ result.1)
    | some k => getAllPersonsLoop items pageSize fuel (some k)
        (acc ++ result.1)

/-- `getAllPersons`: run the loop from the start with no cursor; fuel one
more than the item count always suffices (shown in the theorem below). -/
def getAllPersons {α : Type} (items : List α) (pageSize : Nat) :
    Option (List α) :=
  getAllPersonsLoop items pageSize (items.length + 1) none []

theorem getAllPersonsLoop_spec {α : Type} (items : List α) (pageSize : Nat)
    (hp : 0 < pageSize) : ∀ (fuel : Nat) (startKey : Option Nat)
    (acc : List α),
    items.length - startKey.getD 0 ≤ fuel * pageSize → 0 < fuel →
    getAllPersonsLoop items pageSize fuel startKey acc =
      some (acc ++ items.drop (startKey.getD 0)) := by
  intro fuel
  induction fuel with
  | zero => intro _ _ _ hfuel; omega
  | succ f ih =>
    intro startKey acc hle _
    unfold getAllPersonsLoop
    simp only [ddbQueryPage]
    have hplen : ((items.drop (startKey.getD 0)).take pageSize).length =
        min pageSize (items.length - startKey.getD 0) := by
      rw [List.length_take, List.length_drop]
    by_cases hmore : startKey.getD 0 +
        ((items.drop (startKey.getD 0)).take pageSize).length < items.length
    · rw [if_pos hmore]
      have hfull : ((items.drop (startKey.getD 0)).take pageSize).length =
          pageSize := by
        omega
      have hmul : (f + 1) * pageSize = f * pageSize + pageSize := by ring
      have hrest : items.length - (startKey.getD 0 +
          ((items.drop (startKey.getD 0)).take pageSize).length) ≤
          f * pageSize := by
        rw [hfull]
        omega
      have hfpos : 0 < f := by
        by_contra hf
        have hf0 : f = 0 := by omega
        subst hf0
        rw [hfull] at hmore
        simp only [Nat.zero_mul] at hrest
        omega
      have hIH := ih (some (startKey.getD 0 +
          ((items.drop (startKey.getD 0)).take pageSize).length))
        (acc ++ (items.drop (startKey.getD 0)).take pageSize)
        (by simpa using hrest) hfpos
      refine hIH.trans ?_
      congr 1
      rw [List.append_assoc]
      congr 1
      simp only [Option.getD_some]
      rw [hfull, ← List.drop_drop]
      exact List.take_append_drop pageSize (items.drop (startKey.getD 0))
    · rw [if_neg hmore]
      have htake : (items.drop (startKey.getD 0)).take pageSize =
          items.drop (startKey.getD 0) := by
        apply List.take_of_length_le
        rw [List.length_drop]
        omega
      rw [htake]

/-- C10: for every seeded dataset and every (positive) per-request page
size smaller than the total item count, the `ExclusiveStartKey` /
`LastEvaluatedKey` loop reaches exhaustion (within item-count-many
requests) and the concatenation of all returned pages is exactly the
seeded dataset — nothing missing and no duplicates. -/
theorem getAllPersons_pager_exhaustion {α : Type} (items : List α)
    (pageSize : Nat) (hp : 0 < pageSize) (hs : pageSize < items.length) :
    getAllPersons items pageSize = some items := by
  unfold getAllPersons
  rw [getAllPersonsLoop_spec items pageSize hp (items.length + 1) none []]
  · simp
  · have : items.length + 1 ≤ (items.length + 1) * pageSize :=
      Nat.le_mul_of_pos_right _ hp
    simp only [Option.getD_none]
    omega
  · omega

/-- C10 witness: a three-item dataset drained with page size two. -/
theorem getAllPersons_pager_exhaustion_witness :
    getAllPersons ([10, 20, 30] : List Nat) 2 = some [10, 20, 30] :=
  getAllPersons_pager_exhaustion [10, 20, 30] 2 (by decide) (by decide)

/-! ## Search merge (`orama/personSearch.ts` `mergeEntitiesToSummaries`)

The JavaScript `Map<string, PersonSummary>` is modelled as a list of
summaries unique in `id`, in insertion order (`Map` iteration order);
`Map.set` overwrites in place or appends, and the in-place mutation of one
looked-up entry is a map over the list guarded by the entry's id. -/

structure PersonSummary where
  id : String
  firstName : String
  lastName : String
  city : Option String := none
  country : Option String := none
  email : Option String := none
  phone : Option String := none
  companyName : Option String := none
  position : Option String := none
  bankName : Option String := none
deriving DecidableEq

/-- `summaryMap.set(s.id, s)`: overwrite the entry with the same key,
keeping its position, or append a new entry. -/
def mapSet (m : List PersonSummary) (s : PersonSummary) :
    List PersonSummary :=
  if m.any (fun t => t.id == s.id) then
    m.map (fun t => if t.id == s.id then s else t)
  else m ++ [s]

/-- The seed entry created for each Person record. -/
def toInitialSummary (p : Person) : PersonSummary :=
  { id := p.id, firstName := p.firstName, lastName := p.lastName }

/-- Phase 1 seed: `summaryMap.set(person.id, {...})` over all persons. -/
def seedSummaries (persons : List Person) : List PersonSummary :=
  persons.foldl (fun m p => mapSet m (toInitialSummary p)) []

/-- Phase 2 body: if the address's person has an entry and the address is
primary, write `city`/`country` into that entry. -/
def applyAddress (a : Address) (s : PersonSummary) : PersonSummary :=
  if s.id == a.personId && a.isPrimary then
    { s with city := some a.city, country := some a.country }
  else s

/-- Phase 3 body: if the contact's person has an entry and the contact is
primary, write `email` when its type is `email`, or `phone` when its type
is `phone` or `mobile` (other types write nothing). -/
def applyContact (c : ContactInfo) (s : PersonSummary) : PersonSummary :=
  if s.id == c.personId && c.isPrimary then
    if c.type == ContactType.email then { s with email := some c.value }
    else if c.type == ContactType.phone || c.type == ContactType.mobile then
      { s with phone := some c.value }
    else s
  else s

/-- Phase 4 body: if the employment's person has an entry and the
employment is current, write `companyName`/`position`. -/
def applyEmployment (e : Employment) (s : PersonSummary) : PersonSummary :=
  if s.id == e.personId && e.isCurrent then
    { s with companyName := some e.companyName, position := some e.position }
  else s

/-- Phase 5 body: if the bank account's person has an entry and the
account is primary, write `bankName`. -/
def applyBank (b : BankAccount) (s : PersonSummary) : PersonSummary :=
  if s.id == b.personId && b.isPrimary then
    { s with bankName := some b.bankName }
  else s

/-- `mergeEntitiesToSummaries(data)`: seed one summary per Person, then
fold the four child phases in source order (addresses, contacts,
employments, bank accounts) and return the map's values in insertion
order. -/
def mergeEntitiesToSummaries (data : AllEntitiesData) :
    List PersonSummary :=
  let m0 := seedSummaries data.persons
  let m1 := data.addresses.foldl (fun m a => m.map (fun s => applyAddress a s)) m0
  let m2 := data.contacts.foldl (fun m c => m.map (fun s => applyContact c s)) m1
  let m3 := data.employments.foldl
    (fun m e => m.map (fun s => applyEmployment e s)) m2
  data.bankAccounts.foldl (fun m b => m.map (fun s => applyBank b s)) m3

/-- The value written by the last record of `l` satisfying `q` (in
iteration order), projected through `f`; `d` when no record satisfies
`q` — the "last write wins" merge of one field. -/
def lastWriteWins {α γ : Type} (q : α → Bool) (f : α → γ) :
    List α → Option γ → Option γ
  | [], d => d
  | a :: l, d => lastWriteWins q f l (if q a then some (f a) else d)

/-- A fold of per-record writes over one map entry computes the
last-write-wins value of the projected field: the step writes `some (f a)`
exactly when the record's guard (a function of the entry's id, which every
step preserves) holds, and leaves the field alone otherwise. -/
theorem foldl_step_lastWrite {α β γ : Type} (step : α → β → β)
    (idp : β → String) (proj : β → Option γ) (q : α → String → Bool)
    (f : α → γ)
    (hid : ∀ a s, idp (step a s) = idp s)
    (hskip : ∀ a s, q a (idp s) = false → proj (step a s) = proj s)
    (hwrite : ∀ a s, q a (idp s) = true → proj (step a s) = some (f a)) :
    ∀ (l : List α) (s : β),
    proj (l.foldl (fun s a => step a s) s) =
      lastWriteWins (fun a => q a (idp s)) f l (proj s) := by
  intro l
  induction l with
  | nil => intro s; rfl
  | cons a l ih =>
    intro s
    rw [List.foldl_cons, ih (step a s)]
    simp only [hid]
    show _ = lastWriteWins (fun x => q x (idp s)) f l
      (if q a (idp s) then some (f a) else proj s)
    cases hqa : q a (idp s) with
    | true => rw [hwrite a s hqa]; simp
    | false => rw [hskip a s hqa]; simp

/-- A fold of steps that all preserve a projection preserves it. -/
theorem foldl_preserve {α β γ : Type} (step : α → β → β) (proj : β → γ)
    (h : ∀ a s, proj (step a s) = proj s) :
    ∀ (l : List α) (s : β),
    proj (l.foldl (fun s a => step a s) s) = proj s := by
  intro l
  induction l with
  | nil => intro s; rfl
  | cons a l ih => intro s; rw [List.foldl_cons, ih, h]

/-- Folding whole-map updates is a pointwise fold on each entry. -/
theorem foldl_map_pointwise {α β : Type} (g : α → β → β) :
    ∀ (l : List α) (m : List β),
    l.foldl (fun m a => m.map (fun s => g a s)) m =
      m.map (fun s => l.foldl (fun s a => g a s) s) := by
  intro l
  induction l with
  | nil => intro m; simp
  | cons a l ih =>
    intro m
    rw [List.foldl_cons, ih, List.map_map]
    rfl

/-! Preservation facts: each phase body touches only its own fields and
never the entry's id. -/

theorem applyAddress_id (a : Address) (s : PersonSummary) :
    (applyAddress a s).id = s.id := by
  unfold applyAddress; split <;> rfl

theorem applyAddress_firstName (a : Address) (s : PersonSummary) :
    (applyAddress a s).firstName = s.firstName := by
  unfold applyAddress; split <;> rfl

theorem applyAddress_lastName (a : Address) (s : PersonSummary) :
    (applyAddress a s).lastName = s.lastName := by
  unfold applyAddress; split <;> rfl

theorem applyAddress_email (a : Address) (s : PersonSummary) :
    (applyAddress a s).email = s.email := by
  unfold applyAddress; split <;> rfl

theorem applyAddress_phone (a : Address) (s : PersonSummary) :
    (applyAddress a s).phone = s.phone := by
  unfold applyAddress; split <;> rfl

theorem applyAddress_companyName (a : Address) (s : PersonSummary) :
    (applyAddress a s).companyName = s.companyName := by
  unfold applyAddress; split <;> rfl

theorem applyAddress_position (a : Address) (s : PersonSummary) :
    (applyAddress a s).position = s.position := by
  unfold applyAddress; split <;> rfl

theorem applyAddress_bankName (a : Address) (s : PersonSummary) :
    (applyAddress a s).bankName = s.bankName := by
  unfold applyAddress; split <;> rfl

theorem applyContact_id (c : ContactInfo) (s : PersonSummary) :
    (applyContact c s).id = s.id := by
  unfold applyContact; (repeat' split) <;> rfl

theorem applyContact_firstName (c : ContactInfo) (s : PersonSummary) :
    (applyContact c s).firstName = s.firstName := by
  unfold applyContact; (repeat' split) <;> rfl

theorem applyContact_lastName (c : ContactInfo) (s : PersonSummary) :
    (applyContact c s).lastName = s.lastName := by
  unfold applyContact; (repeat' split) <;> rfl

theorem applyContact_city (c : ContactInfo) (s : PersonSummary) :
    (applyContact c s).city = s.city := by
  unfold applyContact; (repeat' split) <;> rfl

theorem applyContact_country (c : ContactInfo) (s : PersonSummary) :
    (applyContact c s).country = s.country := by
  unfold applyContact; (repeat' split) <;> rfl

theorem applyContact_companyName (c : ContactInfo) (s : PersonSummary) :
    (applyContact c s).companyName = s.companyName := by
  unfold applyContact; (repeat' split) <;> rfl

theorem applyContact_position (c : ContactInfo) (s : PersonSummary) :
    (applyContact c s).position = s.position := by
  unfold applyContact; (repeat' split) <;> rfl

theorem applyContact_bankName (c : ContactInfo) (s : PersonSummary) :
    (applyContact c s).bankName = s.bankName := by
  unfold applyContact; (repeat' split) <;> rfl

theorem applyEmployment_id (e : Employment) (s : PersonSummary) :
    (applyEmployment e s).id = s.id := by
  unfold applyEmployment; split <;> rfl

theorem applyEmployment_firstName (e : Employment) (s : PersonSummary) :
    (applyEmployment e s).firstName = s.firstName := by
  unfold applyEmployment; split <;> rfl

theorem applyEmployment_lastName (e : Employment) (s : PersonSummary) :
    (applyEmployment e s).lastName = s.lastName := by
  unfold applyEmployment; split <;> rfl

theorem applyEmployment_city (e : Employment) (s : PersonSummary) :
    (applyEmployment e s).city = s.city := by
  unfold applyEmployment; split <;> rfl

theorem applyEmployment_country (e : Employment) (s : PersonSummary) :
    (applyEmployment e s).country = s.country := by
  unfold applyEmployment; split <;> rfl

theorem applyEmployment_email (e : Employment) (s : PersonSummary) :
    (applyEmployment e s).email = s.email := by
  unfold applyEmployment; split <;> rfl

theorem applyEmployment_phone (e : Employment) (s : PersonSummary) :
    (applyEmployment e s).phone = s.phone := by
  unfold applyEmployment; split <;> rfl

theorem applyEmployment_bankName (e : Employment) (s : PersonSummary) :
    (applyEmployment e s).bankName = s.bankName := by
  unfold applyEmployment; split <;> rfl

theorem applyBank_id (b : BankAccount) (s : PersonSummary) :
    (applyBank b s).id = s.id := by
  unfold applyBank; split <;> rfl

theorem applyBank_firstName (b : BankAccount) (s : PersonSummary) :
    (applyBank b s).firstName = s.firstName := by
  unfold applyBank; split <;> rfl

theorem applyBank_lastName (b : BankAccount) (s : PersonSummary) :
    (applyBank b s).lastName = s.lastName := by
  unfold applyBank; split <;> rfl

theorem applyBank_city (b : BankAccount) (s : PersonSummary) :
    (applyBank b s).city = s.city := by
  unfold applyBank; split <;> rfl

theorem applyBank_country (b : BankAccount) (s : PersonSummary) :
    (applyBank b s).country = s.country := by
  unfold applyBank; split <;> rfl

theorem applyBank_email (b : BankAccount) (s : PersonSummary) :
    (applyBank b s).email = s.email := by
  unfold applyBank; split <;> rfl

theorem applyBank_phone (b : BankAccount) (s : PersonSummary) :
    (applyBank b s).phone = s.phone := by
  unfold applyBank; split <;> rfl

theorem applyBank_companyName (b : BankAccount) (s : PersonSummary) :
    (applyBank b s).companyName = s.companyName := by
  unfold applyBank; split <;> rfl

theorem applyBank_position (b : BankAccount) (s : PersonSummary) :
    (applyBank b s).position = s.position := by
  unfold applyBank; split <;> rfl

/-! Write facts: each phase body writes its fields exactly when its guard
holds. -/

theorem applyAddress_city_write (a : Address) (s : PersonSummary)
    (h : (s.id == a.personId && a.isPrimary) = true) :
    (applyAddress a s).city = some a.city := by
  unfold applyAddress; rw [if_pos h]

theorem applyAddress_city_skip (a : Address) (s : PersonSummary)
    (h : (s.id == a.personId && a.isPrimary) = false) :
    (applyAddress a s).city = s.city := by
  unfold applyAddress; rw [if_neg (by simp [h])]

theorem applyAddress_country_write (a : Address) (s : PersonSummary)
    (h : (s.id == a.personId && a.isPrimary) = true) :
    (applyAddress a s).country = some a.country := by
  unfold applyAddress; rw [if_pos h]

theorem applyAddress_country_skip (a : Address) (s : PersonSummary)
    (h : (s.id == a.personId && a.isPrimary) = false) :
    (applyAddress a s).country = s.country := by
  unfold applyAddress; rw [if_neg (by simp [h])]

theorem applyContact_email_write (c : ContactInfo) (s : PersonSummary)
    (h : (s.id == c.personId && c.isPrimary &&
      c.type == ContactType.email) = true) :
    (applyContact c s).email = some c.value := by
  rw [Bool.and_eq_true] at h
  unfold applyContact
  rw [if_pos h.1, if_pos h.2]

theorem applyContact_email_skip (c : ContactInfo) (s : PersonSummary)
    (h : (s.id == c.personId && c.isPrimary &&
      c.type == ContactType.email) = false) :
    (applyContact c s).email = s.email := by
  unfold applyContact
  rcases Bool.eq_false_or_eq_true (s.id == c.personId && c.isPrimary) with
    houter | houter
  · rw [houter, Bool.true_and] at h
    rw [if_pos houter, if_neg (by simp [h])]
    split <;> rfl
  · rw [if_neg (by simp [houter])]

theorem applyContact_phone_write (c : ContactInfo) (s : PersonSummary)
    (h : (s.id == c.personId && c.isPrimary &&
      (c.type == ContactType.phone || c.type == ContactType.mobile)) =
      true) :
    (applyContact c s).phone = some c.value := by
  rw [Bool.and_eq_true] at h
  have hem : (c.type == ContactType.email) = false := by
    have := h.2
    cases hct : c.type <;> simp_all
  unfold applyContact
  rw [if_pos h.1, if_neg (by simp [hem]), if_pos h.2]

theorem applyContact_phone_skip (c : ContactInfo) (s : PersonSummary)
    (h : (s.id == c.personId && c.isPrimary &&
      (c.type == ContactType.phone || c.type == ContactType.mobile)) =
      false) :
    (applyContact c s).phone = s.phone := by
  unfold applyContact
  rcases Bool.eq_false_or_eq_true (s.id == c.personId && c.isPrimary) with
    houter | houter
  · rw [houter, Bool.true_and] at h
    rw [if_pos houter]
    split
    · rfl
    · rw [if_neg (by simp [h])]
  · rw [if_neg (by simp [houter])]

theorem applyEmployment_companyName_write (e : Employment)
    (s : PersonSummary) (h : (s.id == e.personId && e.isCurrent) = true) :
    (applyEmployment e s).companyName = some e.companyName := by
  unfold applyEmployment; rw [if_pos h]

theorem applyEmployment_companyName_skip (e : Employment)
    (s : PersonSummary) (h : (s.id == e.personId && e.isCurrent) = false) :
    (applyEmployment e s).companyName = s.companyName := by
  unfold applyEmployment; rw [if_neg (by simp [h])]

theorem applyEmployment_position_write (e : Employment) (s : PersonSummary)
    (h : (s.id == e.personId && e.isCurrent) = true) :
    (applyEmployment e s).position = some e.position := by
  unfold applyEmployment; rw [if_pos h]

theorem applyEmployment_position_skip (e : Employment) (s : PersonSummary)
    (h : (s.id == e.personId && e.isCurrent) = false) :
    (applyEmployment e s).position = s.position := by
  unfold applyEmployment; rw [if_neg (by simp [h])]

theorem applyBank_bankName_write (b : BankAccount) (s : PersonSummary)
    (h : (s.id == b.personId && b.isPrimary) = true) :
    (applyBank b s).bankName = some b.bankName := by
  unfold applyBank; rw [if_pos h]

theorem applyBank_bankName_skip (b : BankAccount) (s : PersonSummary)
    (h : (s.id == b.personId && b.isPrimary) = false) :
    (applyBank b s).bankName = s.bankName := by
  unfold applyBank; rw [if_neg (by simp [h])]

/-- Seeding persons with pairwise-distinct ids into a map disjoint from
them appends one fresh entry per person, in order. -/
theorem seedSummaries_disjoint_append : ∀ (ps : List Person)
    (acc : List PersonSummary),
    (∀ p ∈ ps, ∀ t ∈ acc, t.id ≠ p.id) → (ps.map Person.id).Nodup →
    ps.foldl (fun m p => mapSet m (toInitialSummary p)) acc =
      acc ++ ps.map toInitialSummary := by
  intro ps
  induction ps with
  | nil => intro acc _ _; simp
  | cons p ps ih =>
    intro acc hdisj hnd
    rw [List.foldl_cons]
    have hset : mapSet acc (toInitialSummary p) =
        acc ++ [toInitialSummary p] := by
      unfold mapSet
      rw [if_neg]
      intro hA
      rcases List.any_eq_true.mp hA with ⟨t, ht, hteq⟩
      exact hdisj p (List.mem_cons_self p ps) t ht (by simpa using hteq)
    rw [hset]
    have hnd' : ((p :: ps).map Person.id).Nodup := hnd
    rw [List.map_cons, List.nodup_cons] at hnd'
    rw [ih (acc ++ [toInitialSummary p]) ?_ hnd'.2]
    · rw [List.append_assoc]
      rfl
    · intro q hq t ht
      rcases List.mem_append.mp ht with h1 | h1
      · exact hdisj q (List.mem_cons_of_mem _ hq) t h1
      · have ht1 : t = toInitialSummary p := by simpa using h1
        subst ht1
        intro heq
        have heq' : p.id = q.id := heq
        exact hnd'.1 (heq' ▸ List.mem_map_of_mem Person.id hq)

theorem seedSummaries_eq (persons : List Person)
    (hnd : (persons.map Person.id).Nodup) :
    seedSummaries persons = persons.map toInitialSummary := by
  unfold seedSummaries
  rw [seedSummaries_disjoint_append persons []
    (by intro p _ t ht; exact absurd ht (List.not_mem_nil t)) hnd]
  rfl

/-- All four child phases folded over one map entry, in source order. -/
def mergePhases (data : AllEntitiesData) (t : PersonSummary) :
    PersonSummary :=
  data.bankAccounts.foldl (fun s b => applyBank b s)
    (data.employments.foldl (fun s e => applyEmployment e s)
      (data.contacts.foldl (fun s c => applyContact c s)
        (data.addresses.foldl (fun s a => applyAddress a s) t)))

theorem mergeEntitiesToSummaries_eq_map (data : AllEntitiesData) :
    mergeEntitiesToSummaries data =
      (seedSummaries data.persons).map (fun t => mergePhases data t) := by
  unfold mergeEntitiesToSummaries mergePhases
  simp only [foldl_map_pointwise, List.map_map]
  rfl

theorem mergePhases_id (data : AllEntitiesData) (t : PersonSummary) :
    (mergePhases data t).id = t.id := by
  unfold mergePhases
  rw [foldl_preserve applyBank PersonSummary.id applyBank_id,
      foldl_preserve applyEmployment PersonSummary.id applyEmployment_id,
      foldl_preserve applyContact PersonSummary.id applyContact_id,
      foldl_preserve applyAddress PersonSummary.id applyAddress_id]

/-- C7: under unique person ids, the merge builds exactly one summary per
Person record (same ids, in order), seeded with the person's names; and
each merged field holds the value of the last child in iteration order
whose `isPrimary`/`isCurrent` flag is set for that person (`city`/`country`
from the last primary address, `email` from the last primary email
contact, `phone` from the last primary phone-or-mobile contact,
`companyName`/`position` from the last current employment, `bankName` from
the last primary bank account), and is absent when no such child exists. -/
theorem mergeEntities_one_summary_per_person (data : AllEntitiesData)
    (hnd : (data.persons.map Person.id).Nodup) :
    (mergeEntitiesToSummaries data).map PersonSummary.id =
      data.persons.map Person.id ∧
    ∀ p ∈ data.persons, ∀ s ∈ mergeEntitiesToSummaries data, s.id = p.id →
      s.firstName = p.firstName ∧ s.lastName = p.lastName ∧
      s.city = lastWriteWins (fun a => p.id == a.personId && a.isPrimary)
        Address.city data.addresses none ∧
      s.country = lastWriteWins (fun a => p.id == a.personId && a.isPrimary)
        Address.country data.addresses none ∧
      s.email = lastWriteWins (fun c => p.id == c.personId && c.isPrimary &&
          c.type == ContactType.email)
        ContactInfo.value data.contacts none ∧
      s.phone = lastWriteWins (fun c => p.id == c.personId && c.isPrimary &&
          (c.type == ContactType.phone || c.type == ContactType.mobile))
        ContactInfo.value data.contacts none ∧
      s.companyName = lastWriteWins (fun e => p.id == e.personId &&
          e.isCurrent)
        Employment.companyName data.employments none ∧
      s.position = lastWriteWins (fun e => p.id == e.personId && e.isCurrent)
        Employment.position data.employments none ∧
      s.bankName = lastWriteWins (fun b => p.id == b.personId && b.isPrimary)
        BankAccount.bankName data.bankAccounts none := by
  have hmm := mergeEntitiesToSummaries_eq_map data
  have hseed := seedSummaries_eq data.persons hnd
  constructor
  · rw [hmm, hseed, List.map_map, List.map_map]
    apply List.map_congr_left
    intro p _
    show (mergePhases data (toInitialSummary p)).id = p.id
    rw [mergePhases_id]
    rfl
  · intro p hp s hs hsid
    rw [hmm, hseed, List.map_map] at hs
    rcases List.mem_map.mp hs with ⟨p1, hp1, hpeq⟩
    have hpeq : mergePhases data (toInitialSummary p1) = s := hpeq
    have hid1 : s.id = p1.id := by
      rw [← hpeq, mergePhases_id]
      rfl
    have hp1p : p1 = p :=
      List.inj_on_of_nodup_map hnd hp1 hp (by rw [← hid1, hsid])
    subst hp1p
    subst hpeq
    refine ⟨?_, ?_, ?_, ?_, ?_, ?_, ?_, ?_, ?_⟩
    · show (mergePhases data (toInitialSummary p1)).firstName = _
      unfold mergePhases
      rw [foldl_preserve applyBank PersonSummary.firstName applyBank_firstName,
        foldl_preserve applyEmployment PersonSummary.firstName
          applyEmployment_firstName,
        foldl_preserve applyContact PersonSummary.firstName
          applyContact_firstName,
        foldl_preserve applyAddress PersonSummary.firstName
          applyAddress_firstName]
      rfl
    · show (mergePhases data (toInitialSummary p1)).lastName = _
      unfold mergePhases
      rw [foldl_preserve applyBank PersonSummary.lastName applyBank_lastName,
        foldl_preserve applyEmployment PersonSummary.lastName
          applyEmployment_lastName,
        foldl_preserve applyContact PersonSummary.lastName
          applyContact_lastName,
        foldl_preserve applyAddress PersonSummary.lastName
          applyAddress_lastName]
      rfl
    · show (mergePhases data (toInitialSummary p1)).city = _
      unfold mergePhases
      rw [foldl_preserve applyBank PersonSummary.city applyBank_city,
        foldl_preserve applyEmployment PersonSummary.city
          applyEmployment_city,
        foldl_preserve applyContact PersonSummary.city applyContact_city,
        foldl_step_lastWrite applyAddress PersonSummary.id PersonSummary.city
          (fun a pid => pid == a.personId && a.isPrimary) Address.city
          applyAddress_id applyAddress_city_skip applyAddress_city_write]
      rfl
    · show (mergePhases data (toInitialSummary p1)).country = _
      unfold mergePhases
      rw [foldl_preserve applyBank PersonSummary.country applyBank_country,
        foldl_preserve applyEmployment PersonSummary.country
          applyEmployment_country,
        foldl_preserve applyContact PersonSummary.country
          applyContact_country,
        foldl_step_lastWrite applyAddress PersonSummary.id
          PersonSummary.country
          (fun a pid => pid == a.personId && a.isPrimary) Address.country
          applyAddress_id applyAddress_country_skip
          applyAddress_country_write]
      rfl
    · show (mergePhases data (toInitialSummary p1)).email = _
      unfold mergePhases
      rw [foldl_preserve applyBank PersonSummary.email applyBank_email,
        foldl_preserve applyEmployment PersonSummary.email
          applyEmployment_email,
        foldl_step_lastWrite applyContact PersonSummary.id
          PersonSummary.email
          (fun c pid => pid == c.personId && c.isPrimary &&
            c.type == ContactType.email)
          ContactInfo.value
          applyContact_id applyContact_email_skip applyContact_email_write,
        foldl_preserve applyAddress PersonSummary.id applyAddress_id,
        foldl_preserve applyAddress PersonSummary.email applyAddress_email]
      rfl
    · show (mergePhases data (toInitialSummary p1)).phone = _
      unfold mergePhases
      rw [foldl_preserve applyBank PersonSummary.phone applyBank_phone,
        foldl_preserve applyEmployment PersonSummary.phone
          applyEmployment_phone,
        foldl_step_lastWrite applyContact PersonSummary.id
          PersonSummary.phone
          (fun c pid => pid == c.personId && c.isPrimary &&
            (c.type == ContactType.phone || c.type == ContactType.mobile))
          ContactInfo.value
          applyContact_id applyContact_phone_skip applyContact_phone_write,
        foldl_preserve applyAddress PersonSummary.id applyAddress_id,
        foldl_preserve applyAddress PersonSummary.phone applyAddress_phone]
      rfl
    · show (mergePhases data (toInitialSummary p1)).companyName = _
      unfold mergePhases
      rw [foldl_preserve applyBank PersonSummary.companyName
          applyBank_companyName,
        foldl_step_lastWrite applyEmployment PersonSummary.id
          PersonSummary.companyName
          (fun e pid => pid == e.personId && e.isCurrent)
          Employment.companyName
          applyEmployment_id applyEmployment_companyName_skip
          applyEmployment_companyName_write,
        foldl_preserve applyContact PersonSummary.id applyContact_id,
        foldl_preserve applyAddress PersonSummary.id applyAddress_id,
        foldl_preserve applyContact PersonSummary.companyName
          applyContact_companyName,
        foldl_preserve applyAddress PersonSummary.companyName
          applyAddress_companyName]
      rfl
    · show (mergePhases data (toInitialSummary p1)).position = _
      unfold mergePhases
      rw [foldl_preserve applyBank PersonSummary.position applyBank_position,
        foldl_step_lastWrite applyEmployment PersonSummary.id
          PersonSummary.position
          (fun e pid => pid == e.personId && e.isCurrent)
          Employment.position
          applyEmployment_id applyEmployment_position_skip
          applyEmployment_position_write,
        foldl_preserve applyContact PersonSummary.id applyContact_id,
        foldl_preserve applyAddress PersonSummary.id applyAddress_id,
        foldl_preserve applyContact PersonSummary.position
          applyContact_position,
        foldl_preserve applyAddress PersonSummary.position
          applyAddress_position]
      rfl
    · show (mergePhases data (toInitialSummary p1)).bankName = _
      unfold mergePhases
      rw [foldl_step_lastWrite applyBank PersonSummary.id
          PersonSummary.bankName
          (fun b pid => pid == b.personId && b.isPrimary)
          BankAccount.bankName
          applyBank_id applyBank_bankName_skip applyBank_bankName_write,
        foldl_preserve applyEmployment PersonSummary.id applyEmployment_id,
        foldl_preserve applyContact PersonSummary.id applyContact_id,
        foldl_preserve applyAddress PersonSummary.id applyAddress_id,
        foldl_preserve applyEmployment PersonSummary.bankName
          applyEmployment_bankName,
        foldl_preserve applyContact PersonSummary.bankName
          applyContact_bankName,
        foldl_preserve applyAddress PersonSummary.bankName
          applyAddress_bankName]
      rfl

/-- A one-person dataset with one primary address, for the merge witness. -/
def Sample.searchData : AllEntitiesData :=
  { persons := [Sample.person1]
  , addresses := [{ Sample.addr "a1" with isPrimary := true }]
  , bankAccounts := [], contacts := [], employments := [] }

/-- C7 witness: the merge over a concrete one-person dataset with a
primary address produces exactly one summary, for that person's id. -/
theorem mergeEntities_one_summary_per_person_witness :
    (mergeEntitiesToSummaries Sample.searchData).map PersonSummary.id =
      Sample.searchData.persons.map Person.id :=
  (mergeEntities_one_summary_per_person Sample.searchData (by decide)).1

end TanstackAws
